import Mathlib

/-!
Verification of the v6-average-py federated average algorithm.

The repository consists of two functions in `v6_average_py/__init__.py`:

* `central_average(client, column_name, org_ids=None, drop_na=False)` —
  resolves the participating organizations (all collaboration members when
  `org_ids` is falsy), creates one task carrying
  `{"method": "partial_average", "kwargs": {column_name, drop_na}}` addressed
  to the resolved organization ids, waits for the partial results, folds their
  `sum` and `count` fields and returns `{"average": global_sum / global_count}`.

* `partial_average(df, column_name, drop_na=False)` — selects
  `df[column_name]`, optionally drops missing values, and returns
  `{"sum": float(numbers.sum()), "count": len(numbers)}`.  The pandas `sum`
  skips missing values even when they are not dropped.

The embedding below models numbers as exact rationals (`ℚ`), a dataframe as an
association list from column names to columns, a column as a list of optional
rationals (`none` models a missing value / NaN), and Python exceptions
(`KeyError` on column lookup, `ZeroDivisionError` on the final division) as
`Option.none` results.  The external platform (directory lookup, task
transport, result wait) is passed in as explicit parameters.  A separate model
of IEEE-754 binary64 rounding is used where a claim is explicitly about the
floating-point arithmetic the Python code performs.
-/

/-- A column entry: `some q` is a numeric value, `none` is a missing value
(NaN in the pandas dataframe). -/
abbrev Cell := Option ℚ

/-- Model of the pandas dataframe handed to `partial_average` by the node
runtime: an association list from column names to columns. -/
abbrev DataFrame := List (String × List Cell)

/-- The dictionary `{"sum": ..., "count": ...}` returned by `partial_average`:
`sum` is `float(numbers.sum())` and `count` is `len(numbers)`. -/
structure PartialResult where
  sum : ℚ
  count : ℕ
deriving DecidableEq, Repr

/-- The dictionary `{"average": ...}` returned by `central_average`. -/
structure GlobalResult where
  average : ℚ
deriving DecidableEq, Repr

/-- Model of `partial_average(df, column_name, drop_na)`:
`numbers = df[column_name]` (a `KeyError` — the spec's `ColumnNotFoundError` —
when the column does not exist is modelled by `none`); when `drop_na` is set,
`numbers = numbers.dropna()` removes the missing entries; the result is
`{"sum": float(numbers.sum()), "count": len(numbers)}`, where the pandas
`Series.sum` has `skipna=True` and therefore sums only the non-missing
entries, while `len` counts every remaining entry. -/
def partial_average (df : DataFrame) (column_name : String) (drop_na : Bool) :
    Option PartialResult :=
  match List.lookup column_name df with
  | none => none
  | some col =>
    let numbers := if drop_na then col.filter Option.isSome else col
    some { sum := (numbers.filterMap id).sum, count := numbers.length }

/-- A member of the collaboration as returned by `client.organization.list()`;
only its `"id"` field is used. -/
structure Organization where
  id : ℕ
deriving DecidableEq, Repr

/-- The `input_` dictionary of the task created by `central_average`. -/
structure TaskInput where
  method : String
  column_name : String
  drop_na : Bool
deriving DecidableEq, Repr

/-- The task created by `client.task.create(input_=..., organizations=...)`:
the input descriptor together with the list of targeted organization ids. -/
structure CreatedTask where
  input_ : TaskInput
  organizations : List ℕ
deriving DecidableEq, Repr

/-- The participant-resolution step of `central_average`: Python's
`if not org_ids:` guard fires on `None` and on the empty list, and then
replaces `org_ids` with `[organization.get("id") for organization in
client.organization.list()]`; any other value is kept as given. -/
def resolve_org_ids (org_ids : Option (List ℕ)) (organizations : List Organization) :
    List ℕ :=
  match org_ids with
  | none => organizations.map Organization.id
  | some l => if l = [] then organizations.map Organization.id else l

/-- The dispatch step of `central_average`: one task naming the
`partial_average` method, carrying `column_name` and `drop_na` as kwargs,
addressed to the resolved organization ids.  `organizations` is the content of
the platform's directory lookup for the collaboration. -/
def central_task (organizations : List Organization) (column_name : String)
    (org_ids : Option (List ℕ)) (drop_na : Bool) : CreatedTask :=
  { input_ := { method := "partial_average", column_name := column_name,
                drop_na := drop_na },
    organizations := resolve_org_ids org_ids organizations }

/-- The reduction step of `central_average`: starting from `global_sum = 0`
and `global_count = 0`, one pass over the collected results accumulates
`output["sum"]` and `output["count"]`, and the function returns
`{"average": global_sum / global_count}`.  Python raises a
`ZeroDivisionError` when `global_count` is `0`; this is modelled by `none`. -/
def central_reduce (results : List PartialResult) : Option GlobalResult :=
  let global_sum := results.foldl (fun acc output => acc + output.sum) (0 : ℚ)
  let global_count := results.foldl (fun acc output => acc + output.count) (0 : ℕ)
  if global_count = 0 then none
  else some { average := global_sum / (global_count : ℚ) }

/-- Model of the whole `central_average(client, column_name, org_ids, drop_na)`
run: resolve the participants and create the task, obtain the partial results
through the platform's blocking `client.wait_for_results` (modelled by the
function argument `wait_for_results`), and reduce them to the global
average. -/
def central_average (organizations : List Organization) (column_name : String)
    (org_ids : Option (List ℕ)) (drop_na : Bool)
    (wait_for_results : CreatedTask → List PartialResult) : Option GlobalResult :=
  central_reduce (wait_for_results (central_task organizations column_name org_ids drop_na))

/-!
Model of IEEE-754 binary64 arithmetic, used only where a claim is explicitly
about the floating-point numbers the Python code computes with.  A binary64
value in the normal range is a rational `± m * 2^e` with `2^52 ≤ m < 2^53`;
an arithmetic operation computes the exact rational result and rounds it to
the nearest such value, ties going to an even significand.  Overflow and
subnormals are not modelled: every value appearing in the development lies
well inside the normal range, where this rounding is exactly the binary64
semantics of Python's `+` and `/` on floats.
-/

/-- `log2Aux fuel n` is `⌊log₂ n⌋` for `1 ≤ n` (and `0` for `n ∈ {0, 1}`),
computed by structural recursion on the fuel. -/
def log2Aux : ℕ → ℕ → ℕ
  | 0, _ => 0
  | fuel + 1, n => if 2 ≤ n then log2Aux fuel (n / 2) + 1 else 0

/-- `⌊log₂ n⌋` for a positive natural number. -/
def natLog2 (n : ℕ) : ℕ := log2Aux n n

/-- For a positive rational `q`, the unique `e : ℤ` with `2^e ≤ q < 2^(e+1)`.
The first approximation `⌊log₂ num⌋ - ⌊log₂ den⌋` is exact or one too large,
and is corrected by a single comparison. -/
def ratLog2 (q : ℚ) : ℤ :=
  let L : ℤ := (natLog2 q.num.natAbs : ℤ) - (natLog2 q.den : ℤ)
  if q < (2 : ℚ) ^ L then L - 1 else L

/-- Round a rational to the nearest integer, ties to the even integer.
The fractional part `q - ⌊q⌋` is compared with `1/2` through the equivalent
integer-friendly comparison of `2 * q` with `2 * ⌊q⌋ + 1`. -/
def roundEvenInt (q : ℚ) : ℤ :=
  let f := ⌊q⌋
  if 2 * q < 2 * (f : ℚ) + 1 then f
  else if 2 * (f : ℚ) + 1 < 2 * q then f + 1
  else if f % 2 = 0 then f else f + 1

/-- Round an exact rational to the nearest IEEE-754 binary64 value
(round-to-nearest, ties-to-even, 53-bit significand; normal range only). -/
def round64 (q : ℚ) : ℚ :=
  if q = 0 then 0
  else
    let a := |q|
    let e : ℤ := ratLog2 a - 52
    let m : ℤ := roundEvenInt (a * (2 : ℚ) ^ (-e))
    (if q < 0 then -1 else 1) * (m : ℚ) * (2 : ℚ) ^ e

/-- Binary64 addition: Python's `+` on floats. -/
def fpAdd (x y : ℚ) : ℚ := round64 (x + y)

/-- Binary64 division: Python's `/` where the left operand is a float. -/
def fpDiv (x y : ℚ) : ℚ := round64 (x / y)

/-- The reduction step of `central_average` with the floating-point arithmetic
Python actually performs: `global_sum` starts at the int `0` and accumulates
the float partial sums with binary64 additions, `global_count` is exact int
arithmetic, and the final division is a binary64 division. -/
def central_reduce_fp (results : List PartialResult) : Option GlobalResult :=
  let global_sum := results.foldl (fun acc output => fpAdd acc output.sum) (0 : ℚ)
  let global_count := results.foldl (fun acc output => acc + output.count) (0 : ℕ)
  if global_count = 0 then none
  else some { average := fpDiv global_sum (global_count : ℚ) }

/-- `central_average` with the floating-point reduction of
`central_reduce_fp`. -/
def central_average_fp (organizations : List Organization) (column_name : String)
    (org_ids : Option (List ℕ)) (drop_na : Bool)
    (wait_for_results : CreatedTask → List PartialResult) : Option GlobalResult :=
  central_reduce_fp (wait_for_results (central_task organizations column_name org_ids drop_na))

/-! Helper lemmas. -/

/-- The accumulating loop of `central_average` is the sum of the mapped
field. -/
lemma foldl_add_map_sum {β : Type} [AddCommMonoid β] (f : PartialResult → β)
    (l : List PartialResult) (init : β) :
    l.foldl (fun acc output => acc + f output) init = init + (l.map f).sum := by
  induction l generalizing init with
  | nil => simp
  | cons r t ih => simp [ih, add_assoc]

/-- A list with a missing entry has strictly fewer non-missing entries than
entries. -/
lemma length_filterMap_id_lt (col : List Cell) (h : none ∈ col) :
    (col.filterMap id).length < col.length := by
  induction col with
  | nil => simp at h
  | cons a t ih =>
    rcases List.mem_cons.mp h with h1 | h2
    · cases h1
      simpa using Nat.lt_succ_of_le (List.length_filterMap_le id t)
    · cases a with
      | none => simpa using Nat.lt_succ_of_le (List.length_filterMap_le id t)
      | some v => simpa using ih h2

/-! Theorems about the claims. -/

/-- Claim C3: for every dataset `D` and column name `C` such that column `C`
of `D` exists and contains no missing values, `partial_average(D, C,
drop_na=False)` returns `{"sum": s, "count": n}` where `s` is the arithmetic
sum of all entries of `D[C]` and `n` is the number of entries of `D[C]`. -/
theorem partial_average_no_missing (df : DataFrame) (column_name : String)
    (vals : List ℚ) (h : List.lookup column_name df = some (vals.map some)) :
    partial_average df column_name false =
      some { sum := vals.sum, count := vals.length } := by
  simp [partial_average, h, List.filterMap_map]

/-- Witness for C3: the column `[10, 30]` has sum `40` and count `2`. -/
theorem partial_average_no_missing_witness :
    List.lookup "age" [("age", [some (10 : ℚ), some 30])] =
      some ([(10 : ℚ), 30].map some) ∧
    partial_average [("age", [some (10 : ℚ), some 30])] "age" false =
      some { sum := 40, count := 2 } :=
  ⟨by simp, (partial_average_no_missing _ "age" [10, 30] (by simp)).trans (by norm_num)⟩

/-- Claim C4: for every dataset `D` and existing column `C`,
`partial_average(D, C, drop_na=True)` returns the same `{"sum", "count"}` as
`partial_average(D', C, drop_na=False)` where `D'` is `D` with the rows whose
`C` entry is missing physically removed first (only column `C` of `D'` is ever
read, so `D'` is any dataframe whose column `C` is column `C` of `D` with the
missing entries removed). -/
theorem partial_average_drop_na_eq (df df' : DataFrame) (column_name : String)
    (col : List Cell) (h : List.lookup column_name df = some col)
    (h' : List.lookup column_name df' = some (col.filter Option.isSome)) :
    partial_average df column_name true = partial_average df' column_name false := by
  simp [partial_average, h, h']

/-- Witness for C4: dropping the middle missing entry of `[10, NaN, 30]`. -/
theorem partial_average_drop_na_eq_witness :
    List.lookup "age" [("age", [some (10 : ℚ), none, some 30])] =
      some [some (10 : ℚ), none, some 30] ∧
    List.lookup "age" [("age", [some (10 : ℚ), some 30])] =
      some ([some (10 : ℚ), none, some 30].filter Option.isSome) ∧
    partial_average [("age", [some (10 : ℚ), none, some 30])] "age" true =
      partial_average [("age", [some (10 : ℚ), some 30])] "age" false :=
  ⟨by simp, by simp,
    partial_average_drop_na_eq _ _ "age" [some 10, none, some 30] (by simp) (by simp)⟩

/-- Claim C6: for every dataset `D` and existing column `C`, if column `C`
has zero entries remaining after the optional drop-missing filtering
(including the case of an initially empty column), `partial_average` returns
exactly `{"sum": 0, "count": 0}` and does not itself fail. -/
theorem partial_average_empty_column (df : DataFrame) (column_name : String)
    (drop_na : Bool) (col : List Cell)
    (h : List.lookup column_name df = some col)
    (h0 : (if drop_na then col.filter Option.isSome else col) = []) :
    partial_average df column_name drop_na = some { sum := 0, count := 0 } := by
  simp only [partial_average, h]
  rw [h0]
  simp

/-- Witness for C6: an all-missing column with `drop_na = true` yields
`{"sum": 0, "count": 0}`. -/
theorem partial_average_empty_column_witness :
    List.lookup "age" [("age", [(none : Cell)])] = some [(none : Cell)] ∧
    (if true then [(none : Cell)].filter Option.isSome else [(none : Cell)]) = [] ∧
    partial_average [("age", [(none : Cell)])] "age" true =
      some { sum := 0, count := 0 } :=
  ⟨by simp, by simp,
    partial_average_empty_column _ "age" true [none] (by simp) (by simp)⟩

/-- Claim C7: for every dataset `D` and every column name `C` that does not
reference an existing column of `D`, `partial_average(D, C, drop_na)` fails
with the column-lookup error (modelled by `none`) before any sum or count is
produced. -/
theorem partial_average_missing_column (df : DataFrame) (column_name : String)
    (drop_na : Bool) (h : List.lookup column_name df = none) :
    partial_average df column_name drop_na = none := by
  simp [partial_average, h]

/-- Witness for C7: looking up `"height"` in a dataframe that only has an
`"age"` column fails. -/
theorem partial_average_missing_column_witness :
    List.lookup "height" [("age", ([] : List Cell))] = none ∧
    partial_average [("age", ([] : List Cell))] "height" false = none :=
  ⟨by simp, partial_average_missing_column _ "height" false (by simp)⟩

/-- Claim C9: for every dataset `D` and existing column `C` containing
missing values, `partial_average(D, C, drop_na=False)` returns the sum of the
non-missing entries only (pandas `Series.sum` skips NaN by default) while the
count still includes the rows with missing values, so the count is strictly
larger than the number of entries that were summed. -/
theorem partial_average_na_bias (df : DataFrame) (column_name : String)
    (col : List Cell) (h : List.lookup column_name df = some col)
    (hna : none ∈ col) :
    partial_average df column_name false =
      some { sum := (col.filterMap id).sum, count := col.length } ∧
    (col.filterMap id).length < col.length := by
  exact ⟨by simp [partial_average, h], length_filterMap_id_lt col hna⟩

/-- Witness for C9: on the column `[10, NaN, 30]` the sum is `40` (over two
entries) but the count is `3`. -/
theorem partial_average_na_bias_witness :
    List.lookup "age" [("age", [some (10 : ℚ), none, some 30])] =
      some [some (10 : ℚ), none, some 30] ∧
    (none : Cell) ∈ [some (10 : ℚ), none, some 30] ∧
    (partial_average [("age", [some (10 : ℚ), none, some 30])] "age" false =
        some { sum := ([some (10 : ℚ), none, some 30].filterMap id).sum,
               count := [some (10 : ℚ), none, some 30].length } ∧
      ([some (10 : ℚ), none, some 30].filterMap id).length <
        [some (10 : ℚ), none, some 30].length) :=
  ⟨by simp, by simp,
    partial_average_na_bias _ "age" [some 10, none, some 30] (by simp) (by simp)⟩

/-- Counterexample for C1 as stated: the collection `[{sum: 0, count: 0}]` is
non-empty, yet `central_average` does not return an average for it (the
division by the zero global count raises). -/
theorem central_average_nonempty_raises :
    central_average [⟨1⟩] "age" none false (fun _ => [⟨0, 0⟩]) = none ∧
    [(⟨0, 0⟩ : PartialResult)] ≠ [] := by
  exact ⟨by simp [central_average, central_reduce], by simp⟩

/-- Claim C1 (amended: the collected counts must sum to a nonzero value, not
merely come from a non-empty collection): whenever the partial results
collected by `central_average` have counts with nonzero sum, it returns
`{"average": a}` with `a` the sum of all partial `"sum"` fields divided by
the sum of all partial `"count"` fields. -/
theorem central_average_global_average (organizations : List Organization)
    (column_name : String) (org_ids : Option (List ℕ)) (drop_na : Bool)
    (wait_for_results : CreatedTask → List PartialResult)
    (h : ((wait_for_results
        (central_task organizations column_name org_ids drop_na)).map
          PartialResult.count).sum ≠ 0) :
    central_average organizations column_name org_ids drop_na wait_for_results =
      some { average :=
        ((wait_for_results
            (central_task organizations column_name org_ids drop_na)).map
              PartialResult.sum).sum /
          (((wait_for_results
              (central_task organizations column_name org_ids drop_na)).map
                PartialResult.count).sum : ℚ) } := by
  simp only [central_average, central_reduce, foldl_add_map_sum, zero_add]
  rw [if_neg h]

/-- Witness for C1: the two partials `{sum: 10, count: 2}` and
`{sum: 20, count: 3}` give the global average `30 / 5 = 6`. -/
theorem central_average_global_average_witness :
    (([(⟨10, 2⟩ : PartialResult), ⟨20, 3⟩].map PartialResult.count).sum ≠ 0) ∧
    central_average [⟨1⟩, ⟨2⟩] "age" none false (fun _ => [⟨10, 2⟩, ⟨20, 3⟩]) =
      some { average := 6 } :=
  ⟨by simp,
    (central_average_global_average [⟨1⟩, ⟨2⟩] "age" none false
      (fun _ => [⟨10, 2⟩, ⟨20, 3⟩]) (by simp)).trans (by norm_num)⟩

/-- Claim C2: if the partial results collected by `central_average` have
counts summing to zero (a single `{sum: 0, count: 0}` partial, or no partial
results at all), the final division raises a `ZeroDivisionError`, modelled by
`none`: no value is returned and no default is substituted. -/
theorem central_average_zero_count_none (organizations : List Organization)
    (column_name : String) (org_ids : Option (List ℕ)) (drop_na : Bool)
    (wait_for_results : CreatedTask → List PartialResult)
    (h : ((wait_for_results
        (central_task organizations column_name org_ids drop_na)).map
          PartialResult.count).sum = 0) :
    central_average organizations column_name org_ids drop_na wait_for_results = none := by
  simp only [central_average, central_reduce, foldl_add_map_sum, zero_add]
  rw [if_pos h]

/-- Witness for C2: a single `{sum: 0, count: 0}` partial result makes the
aggregation fail. -/
theorem central_average_zero_count_none_witness :
    (([(⟨0, 0⟩ : PartialResult)].map PartialResult.count).sum = 0) ∧
    central_average [⟨1⟩] "age" none false (fun _ => [⟨0, 0⟩]) = none :=
  ⟨by simp,
    central_average_zero_count_none [⟨1⟩] "age" none false
      (fun _ => [⟨0, 0⟩]) (by simp)⟩

/-- `⌊log₂ 1⌋ = 0`. -/
lemma natLog2_one : natLog2 1 = 0 := by decide

/-- `⌊log₂ 2^53⌋ = 53`. -/
lemma natLog2_two_pow_53 : natLog2 9007199254740992 = 53 := by decide

/-- `⌊log₂ (2^53 + 1)⌋ = 53`. -/
lemma natLog2_two_pow_53_succ : natLog2 9007199254740993 = 53 := by decide

/-- `1` is exactly representable in binary64. -/
lemma round64_one : round64 1 = 1 := by
  norm_num [round64, ratLog2, roundEvenInt, natLog2_one]

/-- `2^53` is exactly representable in binary64. -/
lemma round64_two_pow_53 : round64 9007199254740992 = 9007199254740992 := by
  norm_num [round64, ratLog2, roundEvenInt, natLog2_one, natLog2_two_pow_53]

/-- `2^53 + 1` is halfway between the neighbouring binary64 values `2^53` and
`2^53 + 2`; the tie goes to the even significand, i.e. down to `2^53`. -/
lemma round64_two_pow_53_succ : round64 9007199254740993 = 9007199254740992 := by
  norm_num [round64, ratLog2, roundEvenInt, natLog2_one, natLog2_two_pow_53_succ]

/-- `0` is exactly representable in binary64. -/
lemma round64_zero : round64 0 = 0 := by norm_num [round64]

/-- Counterexample for C5 as stated: for the floating-point sums actually
used, the fold is order-dependent.  The partials `{sum: 2^53, count: 1}`,
`{sum: 1, count: 0}` and `{sum: -2^53, count: 0}` folded in this order give
`(2^53 + 1) + -2^53 = 2^53 + -2^53 = 0` (the binary64 addition `2^53 + 1`
rounds the tie back to `2^53`), while the permutation that swaps the last two
partials gives `(2^53 + -2^53) + 1 = 1`: the two averages are `0` and `1`. -/
theorem central_average_fp_order_dependent :
    List.Perm [(⟨2 ^ 53, 1⟩ : PartialResult), ⟨1, 0⟩, ⟨-(2 ^ 53), 0⟩]
      [(⟨2 ^ 53, 1⟩ : PartialResult), ⟨-(2 ^ 53), 0⟩, ⟨1, 0⟩] ∧
    central_average_fp [⟨1⟩] "age" none false
        (fun _ => [⟨2 ^ 53, 1⟩, ⟨1, 0⟩, ⟨-(2 ^ 53), 0⟩]) ≠
      central_average_fp [⟨1⟩] "age" none false
        (fun _ => [⟨2 ^ 53, 1⟩, ⟨-(2 ^ 53), 0⟩, ⟨1, 0⟩]) := by
  constructor
  · exact List.Perm.cons _ (List.Perm.swap _ _ _)
  · norm_num [central_average_fp, central_reduce_fp, fpAdd, fpDiv, round64_one,
      round64_two_pow_53, round64_two_pow_53_succ, round64_zero]

/-- Claim C5 (amended: order-independence holds for the exact values of the
sums, i.e. in ideal real arithmetic, but not for the floating-point sums
actually used, which the counterexample refutes): for every permutation of a
fixed collection of partial results, `central_average` computes the same
global average. -/
theorem central_average_perm_invariant (organizations : List Organization)
    (column_name : String) (org_ids : Option (List ℕ)) (drop_na : Bool)
    (w₁ w₂ : CreatedTask → List PartialResult)
    (h : (w₁ (central_task organizations column_name org_ids drop_na)).Perm
      (w₂ (central_task organizations column_name org_ids drop_na))) :
    central_average organizations column_name org_ids drop_na w₁ =
      central_average organizations column_name org_ids drop_na w₂ := by
  simp only [central_average, central_reduce, foldl_add_map_sum, zero_add]
  rw [(h.map PartialResult.sum).sum_eq, (h.map PartialResult.count).sum_eq]

/-- Witness for C5: swapping the two partials of the worked example does not
change the exact-arithmetic average. -/
theorem central_average_perm_invariant_witness :
    List.Perm [(⟨10, 2⟩ : PartialResult), ⟨20, 3⟩]
      [(⟨20, 3⟩ : PartialResult), ⟨10, 2⟩] ∧
    central_average [⟨1⟩, ⟨2⟩] "age" none false (fun _ => [⟨10, 2⟩, ⟨20, 3⟩]) =
      central_average [⟨1⟩, ⟨2⟩] "age" none false (fun _ => [⟨20, 3⟩, ⟨10, 2⟩]) :=
  ⟨List.Perm.swap _ _ _,
    central_average_perm_invariant [⟨1⟩, ⟨2⟩] "age" none false
      (fun _ => [⟨10, 2⟩, ⟨20, 3⟩]) (fun _ => [⟨20, 3⟩, ⟨10, 2⟩])
      (List.Perm.swap _ _ _)⟩

/-- Counterexample for C8 as stated: an explicitly supplied empty organization
list is not used verbatim — the `if not org_ids` guard treats it like an
absent list, and the task is dispatched to the whole collaboration instead. -/
theorem central_task_empty_list_not_verbatim :
    (central_task [⟨5⟩] "age" (some []) false).organizations = [5] ∧
    ([5] : List ℕ) ≠ [] := by
  exact ⟨rfl, by simp⟩

/-- Claim C8 (amended: a supplied list is used verbatim only when it is
non-empty; an empty list, like an absent one, resolves to the whole
collaboration): the dispatched task targets exactly the resolved list; with no
explicit list the resolved list is every organization of the collaboration,
and a non-empty explicit list is used verbatim with no membership
validation. -/
theorem central_task_resolution (organizations : List Organization)
    (column_name : String) (org_ids : Option (List ℕ)) (drop_na : Bool)
    (l : List ℕ) (hl : l ≠ []) :
    (central_task organizations column_name org_ids drop_na).organizations =
      resolve_org_ids org_ids organizations ∧
    (central_task organizations column_name none drop_na).organizations =
      organizations.map Organization.id ∧
    (central_task organizations column_name (some l) drop_na).organizations = l := by
  refine ⟨rfl, rfl, ?_⟩
  simp [central_task, resolve_org_ids, hl]

/-- Witness for C8: with collaboration members `1` and `2`, an absent list
targets `[1, 2]` and the explicit non-empty list `[9]` is used verbatim even
though `9` is not a member. -/
theorem central_task_resolution_witness :
    ([9] : List ℕ) ≠ [] ∧
    ((central_task [⟨1⟩, ⟨2⟩] "age" (some [9]) false).organizations =
        resolve_org_ids (some [9]) [⟨1⟩, ⟨2⟩] ∧
      (central_task [⟨1⟩, ⟨2⟩] "age" none false).organizations =
        ([⟨1⟩, ⟨2⟩] : List Organization).map Organization.id ∧
      (central_task [⟨1⟩, ⟨2⟩] "age" (some [9]) false).organizations = [9]) :=
  ⟨by simp,
    central_task_resolution [⟨1⟩, ⟨2⟩] "age" (some [9]) false [9] (by simp)⟩

/-- Counterexample for C10 as stated: when the collaboration itself has no
organizations, the falsy-guarded directory lookup resolves to the empty list
and the task is dispatched to zero organizations. -/
theorem central_task_empty_collab_zero_targets :
    (central_task [] "age" (some []) false).organizations = [] := rfl

/-- Claim C10 (amended: the dispatch goes to every organization of the
collaboration, which is zero organizations only in the degenerate case of an
empty collaboration): `central_average` treats an explicitly supplied empty
organization list exactly like an absent one — for both, the `if not org_ids`
guard triggers the directory lookup and the task is dispatched to every
organization in the collaboration. -/
theorem central_task_falsy_org_ids (organizations : List Organization)
    (column_name : String) (drop_na : Bool) (org_ids : Option (List ℕ))
    (h : org_ids = none ∨ org_ids = some []) :
    (central_task organizations column_name org_ids drop_na).organizations =
      organizations.map Organization.id := by
  rcases h with h | h <;> subst h <;> simp [central_task, resolve_org_ids]

/-- Witness for C10: the explicit empty list targets the whole two-member
collaboration. -/
theorem central_task_falsy_org_ids_witness :
    ((some [] : Option (List ℕ)) = none ∨ (some [] : Option (List ℕ)) = some []) ∧
    (central_task [⟨4⟩, ⟨5⟩] "age" (some []) false).organizations =
      ([⟨4⟩, ⟨5⟩] : List Organization).map Organization.id :=
  ⟨Or.inr rfl,
    central_task_falsy_org_ids [⟨4⟩, ⟨5⟩] "age" false (some []) (Or.inr rfl)⟩
